import Mathlib

/-!
Verification of the three physics demonstration scripts of this repository:
the two-path descent comparison (sheet2/ex10.py), the stunt-jump intercept
animation (sheet2/ex10_james_bond.py), and the orbit comparison
(sheet3/ex14.py).

Machine floating-point arithmetic is embedded as exact arithmetic: the
stunt-jump scenario, whose formulas are rational, is embedded over ℚ so that
concrete runs evaluate by `decide`; the two other scenarios use square roots
and trigonometric constants and are embedded over ℝ.
-/

/-! ## Stunt-jump scenario (src/sheet2/ex10_james_bond.py) -/

namespace Bond

/-- gravity (m/s^2) -/
def g : ℚ := 9.81

/-- stage height (m) -/
def stage_height : ℚ := 4

def x0_bond : ℚ := 0

def y0_bond : ℚ := stage_height

/-- boat length (m) -/
def boat_length : ℚ := 5

/-- boat height (m) -/
def boat_height : ℚ := 0.5

/-- initial boat distance from the stage (m) -/
def boat_x0 : ℚ := 10

/-- boat speed: 30 km/h converted to m/s -/
def boat_speed : ℚ := 30 / 3.6

/-- time step of the sampled grid (s) -/
def dt : ℚ := 0.02

/-- simulation max time (s) -/
def T_max : ℚ := 2

/-- number of samples of `np.arange(0, T_max, dt)`: `ceil((stop - start) / step)` -/
def bondN : ℕ := (T_max / dt).ceil.toNat

/-- the k-th sample of `np.arange(0, T_max, dt)` -/
def tSample (k : ℕ) : ℚ := k * dt

/-- horizontal position of Bond at time t: `x0_bond + vx * t` with
`vx = v0_kmh / 3.6` (from `bond_trajectory`). -/
def bond_x (v0_kmh : ℚ) (t : ℚ) : ℚ := x0_bond + (v0_kmh / 3.6) * t

/-- vertical position of Bond at time t: `y0_bond + vy * t - 0.5 * g * t**2`
with `vy = 0` (from `bond_trajectory`). -/
def bond_y (t : ℚ) : ℚ := y0_bond + 0 * t - 0.5 * g * t ^ 2

/-- the function `boat_position(t)`: returns `(x_left, x_right, y_bottom, y_top)`. -/
def boat_position (t : ℚ) : ℚ × ℚ × ℚ × ℚ :=
  (boat_x0 + boat_speed * t, boat_x0 + boat_speed * t + boat_length, 0, boat_height)

/-- outcome label shown by `status_text`: no text yet, landed, or missed. -/
inductive Status where
  | inflight : Status
  | landed : Status
  | missed : Status
deriving DecidableEq

/-- the stop-condition block of `update`: landed when
`(x_left <= x <= x_right) and (0 <= y <= top)`, else missed when `y <= 0`,
else still in flight. -/
def classify (x y x_left x_right top : ℚ) : Status :=
  if x_left ≤ x ∧ x ≤ x_right ∧ 0 ≤ y ∧ y ≤ top then Status.landed
  else if y ≤ 0 then Status.missed
  else Status.inflight

/-- the stop-condition of frame `k` for initial speed `v0_kmh`. -/
def trig (v0_kmh : ℚ) (k : ℕ) : Status :=
  classify (bond_x v0_kmh (tSample k)) (bond_y (tSample k))
    (boat_x0 + boat_speed * tSample k)
    (boat_x0 + boat_speed * tSample k + boat_length) boat_height

/-- displayed state of the animation: the `stopped` flag, Bond's marker
(`none` while the data is still empty), the drawn trajectory prefix length,
the boat rectangle's left x, and the outcome text. -/
structure JState where
  done : Bool
  bond : Option (ℚ × ℚ)
  trajLen : ℕ
  boatX : ℚ
  text : Status
deriving DecidableEq

/-- state set by `init`. -/
def init : JState :=
  { done := false, bond := none, trajLen := 0, boatX := boat_x0, text := Status.inflight }

/-- one call of `update(frame)`: a no-op when `stopped["done"]`, otherwise it
moves Bond and the boat, then evaluates the stop conditions. -/
def update (v0_kmh : ℚ) (k : ℕ) (s : JState) : JState :=
  if s.done then s
  else
    let x := bond_x v0_kmh (tSample k)
    let y := bond_y (tSample k)
    let xl := boat_x0 + boat_speed * tSample k
    let c := classify x y xl (xl + boat_length) boat_height
    if c = Status.inflight then
      { done := false, bond := some (x, y), trajLen := k, boatX := xl, text := s.text }
    else
      { done := true, bond := some (x, y), trajLen := k, boatX := xl, text := c }

/-- the full animation run: fold `update` over every frame of the grid. -/
def runState (v0_kmh : ℚ) : JState :=
  (List.range bondN).foldl (fun s k => update v0_kmh k s) init

/-- the outcome label left on screen at the end of a run. -/
def runSim (v0_kmh : ℚ) : Status := (runState v0_kmh).text

/-- Modelled from the spec: the classification rule as the spec words it —
at the first sampled frame at which the vertical position is ≤ the target
height, classify landed when the horizontal position lies within the boat's
span at that frame, otherwise missed. -/
def claimOutcome (v0_kmh : ℚ) : Status :=
  match (List.range bondN).find? (fun k => decide (bond_y (tSample k) ≤ boat_height)) with
  | some k =>
      if boat_x0 + boat_speed * tSample k ≤ bond_x v0_kmh (tSample k) ∧
          bond_x v0_kmh (tSample k) ≤ boat_x0 + boat_speed * tSample k + boat_length then
        Status.landed
      else Status.missed
  | none => Status.inflight

/-- the outcome determined by the first frame whose stop-condition fires. -/
def codeOutcome (v0_kmh : ℚ) : Status :=
  match (List.range bondN).find? (fun k => decide (trig v0_kmh k ≠ Status.inflight)) with
  | some k => trig v0_kmh k
  | none => Status.inflight

end Bond

/-! ## Two-path descent scenario (src/sheet2/ex10.py) -/

namespace Ex10

noncomputable section

/-- gravity [m/s^2] -/
def g : ℝ := 9.81

/-- total vertical drop from A to D [m] -/
def h : ℝ := 2.0

/-- length of the incline [m] -/
def l_incline : ℝ := 3.0

/-- thirty-degree incline: pi / 6 -/
def angle : ℝ := Real.pi / 6

/-- final speed (claimed the same for both paths) -/
def v_final : ℝ := Real.sqrt (2 * g * h)

/-- roll distance of path 1 -/
def h_roll : ℝ := 0.5

def v_B : ℝ := Real.sqrt (2 * g * h_roll)

/-- free-fall time of path 1, from height `h - h_roll` -/
def t_fall1 : ℝ := Real.sqrt (2 * (h - h_roll) / g)

/-- acceleration on the incline: `g * sin(angle)` -/
def a_roll : ℝ := g * Real.sin angle

/-- roll time of path 1 on the small incline -/
def t_roll1 : ℝ := Real.sqrt (2 * h_roll / a_roll)

/-- total duration of path 1 -/
def T1 : ℝ := t_roll1 + t_fall1

/-- free-fall height of path 2 -/
def h_free : ℝ := 1.0

def v_C : ℝ := Real.sqrt (2 * g * h_free)

/-- free-fall time of path 2 -/
def t_fall2 : ℝ := Real.sqrt (2 * h_free / g)

def a_roll2 : ℝ := g * Real.sin angle

def s_total : ℝ := l_incline

/-- leading coefficient of `coeff = [0.5 * a_roll2, v_C, -s_total]` -/
def qa : ℝ := 0.5 * a_roll2

/-- middle coefficient of `coeff` -/
def qb : ℝ := v_C

/-- constant coefficient of `coeff` -/
def qc : ℝ := -s_total

/-- discriminant of the quadratic solved by `np.roots(coeff)` -/
def disc : ℝ := qb ^ 2 - 4 * qa * qc

/-- the larger of the two roots returned by `np.roots(coeff)` -/
def root_plus : ℝ := (-qb + Real.sqrt disc) / (2 * qa)

/-- the smaller of the two roots returned by `np.roots(coeff)` -/
def root_minus : ℝ := (-qb - Real.sqrt disc) / (2 * qa)

/-- the duration `t_roll2 = np.max(np.roots(coeff))`: `np.roots` on this quadratic yields the
two quadratic-formula roots, and `np.max` selects the larger. -/
def t_roll2 : ℝ := max root_plus root_minus

/-- total duration of path 2 -/
def T2 : ℝ := t_fall2 + t_roll2

/-- end of the simulation timeline -/
def t_max : ℝ := max T1 T2

/-- the i-th sample of `ts = np.linspace(0, t_max, 300)`:
`0 + i * (t_max - 0) / (300 - 1)` for `i < 300`. -/
def ts (i : ℕ) : ℝ := t_max * i / 299

/-- the function `speed_path1(t)`. -/
def speed_path1 (t : ℝ) : ℝ :=
  if t < t_roll1 then a_roll * t
  else if t < T1 then Real.sqrt (v_B ^ 2 + (g * (t - t_roll1)) ^ 2)
  else v_final

/-- the function `speed_path2(t)`. -/
def speed_path2 (t : ℝ) : ℝ :=
  if t < t_fall2 then g * t
  else if t < T2 then v_C + a_roll2 * (t - t_fall2)
  else v_final

/-- the function `pos_path1(t)` (simplified schematic position used by the animation). -/
def pos_path1 (t : ℝ) : ℝ × ℝ :=
  if t < t_roll1 then (1.0 * t / t_roll1, -h_roll * (t / t_roll1))
  else if t < T1 then
    (1 + 1 * ((t - t_roll1) / t_fall1), -h_roll - (h - h_roll) * ((t - t_roll1) / t_fall1))
  else (2, -h)

/-- the function `pos_path2(t)`. -/
def pos_path2 (t : ℝ) : ℝ × ℝ :=
  if t < t_fall2 then (1.0 * (t / t_fall2), -h_free * (t / t_fall2))
  else if t < T2 then
    (1 + 2 * ((t - t_fall2) / t_roll2), -h_free - (h - h_free) * ((t - t_fall2) / t_roll2))
  else (3, -h)

end

end Ex10

/-! ## Orbit scenario (src/sheet3/ex14.py) -/

namespace Ex14

noncomputable section

/-- gravitational constant [m^3/kg/s^2] -/
def G : ℝ := 6.67430e-11

/-- mass of Earth [kg] -/
def M_earth : ℝ := 5.972e24

def GM : ℝ := G * M_earth

/-- Earth radius [m] -/
def R_earth_real : ℝ := 6.371e6

/-- Earth's rotation period [s] -/
def T_earth : ℝ := 24 * 3600

/-- geostationary radius from `T_geo = T_earth`:
`(GM * (T_geo / (2 * pi)) ** 2) ** (1 / 3)` -/
def r_geo_real : ℝ := (GM * (T_earth / (2 * Real.pi)) ^ 2) ^ ((1 : ℝ) / 3)

/-- too close, faster orbit: `4 ** (-1 / 3) * r_geo_real` -/
def r_close_real : ℝ := (4 : ℝ) ^ (-(1 : ℝ) / 3) * r_geo_real

/-- too far, slower orbit: `4 ** (1 / 3) * r_geo_real` -/
def r_far_real : ℝ := (4 : ℝ) ^ ((1 : ℝ) / 3) * r_geo_real

/-- the function `orbital_period(r) = 2 * pi * sqrt(r**3 / GM)`. -/
def orbital_period (r : ℝ) : ℝ := 2 * Real.pi * Real.sqrt (r ^ 3 / GM)

def T_close : ℝ := orbital_period r_close_real

def T_geo : ℝ := orbital_period r_geo_real

def T_far : ℝ := orbital_period r_far_real

/-- scaled Earth radius in the plot -/
def R_earth : ℝ := 5.0

def scale : ℝ := R_earth / R_earth_real

def r_close : ℝ := r_close_real * scale

def r_geo : ℝ := r_geo_real * scale

def r_far : ℝ := r_far_real * scale

/-- simulation duration -/
def sim_time : ℝ := 3 * T_earth

/-- the i-th sample of `times = np.linspace(0, sim_time, 500)` for `i < 500`. -/
def times (i : ℕ) : ℝ := sim_time * i / 499

/-- the function `sat_pos(r, T, t)`. -/
def sat_pos (r T t : ℝ) : ℝ × ℝ :=
  (r * Real.cos (2 * Real.pi * t / T), r * Real.sin (2 * Real.pi * t / T))

/-- the function `earth_marker(t)`. -/
def earth_marker (t : ℝ) : ℝ × ℝ :=
  (R_earth * Real.cos (2 * Real.pi * t / T_earth), R_earth * Real.sin (2 * Real.pi * t / T_earth))

end

end Ex14

/-! ## Lemmas about the stunt-jump update loop -/

namespace Bond

lemma update_done (v0_kmh : ℚ) (k : ℕ) (s : JState) (h : s.done = true) :
    update v0_kmh k s = s := by
  unfold update
  rw [h]
  simp

lemma foldl_update_done (v0_kmh : ℚ) (ks : List ℕ) (s : JState) (h : s.done = true) :
    ks.foldl (fun s k => update v0_kmh k s) s = s := by
  induction ks with
  | nil => rfl
  | cons k ks ih =>
      simp only [List.foldl_cons, update_done v0_kmh k s h]
      exact ih

lemma foldl_update_text (v0_kmh : ℚ) (ks : List ℕ) (s : JState) (h : s.done = false) :
    (ks.foldl (fun s k => update v0_kmh k s) s).text =
      match ks.find? (fun k => decide (trig v0_kmh k ≠ Status.inflight)) with
      | some k => trig v0_kmh k
      | none => s.text := by
  induction ks generalizing s with
  | nil => rfl
  | cons k ks ih =>
      simp only [List.foldl_cons]
      by_cases hc : trig v0_kmh k = Status.inflight
      · have hupd : update v0_kmh k s =
            { done := false, bond := some (bond_x v0_kmh (tSample k), bond_y (tSample k)),
              trajLen := k, boatX := boat_x0 + boat_speed * tSample k, text := s.text } := by
          unfold update
          rw [h]
          simp only [Bool.false_eq_true, if_false]
          rw [show classify (bond_x v0_kmh (tSample k)) (bond_y (tSample k))
              (boat_x0 + boat_speed * tSample k)
              (boat_x0 + boat_speed * tSample k + boat_length) boat_height
              = trig v0_kmh k from rfl, hc]
          simp
        rw [hupd, ih _ rfl]
        have hfind : (k :: ks).find? (fun k => decide (trig v0_kmh k ≠ Status.inflight)) =
            ks.find? (fun k => decide (trig v0_kmh k ≠ Status.inflight)) := by
          rw [List.find?_cons]
          simp [hc]
        rw [hfind]
      · have hupd : update v0_kmh k s =
            { done := true, bond := some (bond_x v0_kmh (tSample k), bond_y (tSample k)),
              trajLen := k, boatX := boat_x0 + boat_speed * tSample k,
              text := trig v0_kmh k } := by
          unfold update
          rw [h]
          simp only [Bool.false_eq_true, if_false]
          rw [show classify (bond_x v0_kmh (tSample k)) (bond_y (tSample k))
              (boat_x0 + boat_speed * tSample k)
              (boat_x0 + boat_speed * tSample k + boat_length) boat_height
              = trig v0_kmh k from rfl]
          simp [hc]
        rw [hupd, foldl_update_done v0_kmh ks _ rfl]
        have hfind : (k :: ks).find? (fun k => decide (trig v0_kmh k ≠ Status.inflight)) =
            some k := by
          rw [List.find?_cons]
          simp [hc]
        rw [hfind]

end Bond

/-! ## Claim theorems for the stunt-jump scenario -/

/-- C4: the resolved state is absorbing: once the `done` flag is true, every
subsequent `update` call returns the state unchanged — marker, trajectory,
boat rectangle and outcome text keep their last values — both for a single
frame and for any remaining sequence of frames. -/
theorem claim4_resolved_state_absorbing (v0_kmh : ℚ) (k : ℕ) (s : Bond.JState)
    (hdone : s.done = true) :
    Bond.update v0_kmh k s = s ∧
      ∀ ks : List ℕ, ks.foldl (fun s k => Bond.update v0_kmh k s) s = s :=
  ⟨Bond.update_done v0_kmh k s hdone, fun ks => Bond.foldl_update_done v0_kmh ks s hdone⟩

/-- witness for C4 at a concrete resolved state. -/
theorem claim4_resolved_state_absorbing_witness :
    Bond.update 80 5 ⟨true, none, 3, 10, Bond.Status.missed⟩ =
      ⟨true, none, 3, 10, Bond.Status.missed⟩ :=
  (claim4_resolved_state_absorbing 80 5 ⟨true, none, 3, 10, Bond.Status.missed⟩ rfl).1

/-- C5: the landed condition is evaluated before the missed condition: a frame
state satisfying both bounding-box containment and ground-crossing is
classified landed, never missed. -/
theorem claim5_landed_checked_before_missed (x y x_left x_right top : ℚ)
    (h1 : x_left ≤ x) (h2 : x ≤ x_right) (h3 : 0 ≤ y) (h4 : y ≤ top) (_h5 : y ≤ 0) :
    Bond.classify x y x_left x_right top = Bond.Status.landed := by
  unfold Bond.classify
  rw [if_pos ⟨h1, h2, h3, h4⟩]

/-- witness for C5: a state on the deck edge at water level is landed. -/
theorem claim5_landed_checked_before_missed_witness :
    Bond.classify 12 0 10 15 (1/2) = Bond.Status.landed :=
  claim5_landed_checked_before_missed 12 0 10 15 (1/2) (by norm_num) (by norm_num)
    le_rfl (by norm_num) le_rfl

set_option maxRecDepth 10000 in
unseal Rat.add Rat.mul Rat.inv Rat.sub Rat.ofScientific in
/-- C2 (counterexample): at `v0_kmh = 143/2 = 71.5`, the first sampled frame
with vertical position ≤ the target height is frame 43, where the horizontal
position lies left of the boat, so the claim's rule classifies "missed"; the
code keeps checking and classifies "landed" at frame 44. -/
theorem claim2_counterexample :
    Bond.runSim (143 / 2) = Bond.Status.landed ∧
      Bond.claimOutcome (143 / 2) = Bond.Status.missed := by
  decide

/-- C2 (amended): the outcome is decided at the first sampled frame whose
stop-condition fires: "landed" iff at the first frame at which the projectile
is inside the boat's bounding box or at/below ground level it is inside the
box, "missed" iff at that frame it is only at/below ground level, and no
outcome when no frame fires. -/
theorem claim2_amended_outcome_at_first_trigger (v0_kmh : ℚ) :
    Bond.runSim v0_kmh = Bond.codeOutcome v0_kmh := by
  unfold Bond.runSim Bond.runState Bond.codeOutcome
  rw [Bond.foldl_update_text v0_kmh (List.range Bond.bondN) Bond.init rfl]
  rcases hfind : (List.range Bond.bondN).find?
      (fun k => decide (Bond.trig v0_kmh k ≠ Bond.Status.inflight)) with _ | k <;>
    simp [hfind, Bond.init]

/-! ## Lemmas about the two-path kinematics -/

namespace Ex10

lemma sin_angle_eq : Real.sin angle = 1 / 2 := by
  unfold angle
  exact Real.sin_pi_div_six

lemma a_roll_eq : a_roll = 4.905 := by
  unfold a_roll g
  rw [sin_angle_eq]
  norm_num

lemma a_roll2_eq : a_roll2 = 4.905 := by
  unfold a_roll2 g
  rw [sin_angle_eq]
  norm_num

lemma t_roll1_pos : 0 < t_roll1 := by
  unfold t_roll1
  rw [a_roll_eq]
  unfold h_roll
  apply Real.sqrt_pos.mpr
  norm_num

lemma t_fall1_pos : 0 < t_fall1 := by
  unfold t_fall1 h h_roll g
  apply Real.sqrt_pos.mpr
  norm_num

lemma t_fall2_pos : 0 < t_fall2 := by
  unfold t_fall2 h_free g
  apply Real.sqrt_pos.mpr
  norm_num

lemma v_final_eq : v_final = Real.sqrt 39.24 := by
  unfold v_final g h
  norm_num

lemma v_B_nonneg : 0 ≤ v_B := Real.sqrt_nonneg _

lemma v_B_sq : v_B ^ 2 = 9.81 := by
  unfold v_B g h_roll
  rw [Real.sq_sqrt (by norm_num : (0:ℝ) ≤ 2 * 9.81 * 0.5)]
  norm_num

lemma v_C_eq : v_C = Real.sqrt 19.62 := by
  unfold v_C g h_free
  norm_num

lemma v_C_sq : v_C ^ 2 = 19.62 := by
  rw [v_C_eq, Real.sq_sqrt (by norm_num : (0:ℝ) ≤ 19.62)]

lemma v_C_pos : 0 < v_C := by
  rw [v_C_eq]
  apply Real.sqrt_pos.mpr
  norm_num

lemma disc_eq : disc = 49.05 := by
  unfold disc qa qb qc s_total l_incline
  rw [a_roll2_eq, v_C_sq]
  norm_num

lemma sqrt_disc_gt_v_C : v_C < Real.sqrt disc := by
  rw [disc_eq, v_C_eq]
  exact Real.sqrt_lt_sqrt (by norm_num) (by norm_num)

lemma two_qa_pos : (0:ℝ) < 2 * qa := by
  unfold qa
  rw [a_roll2_eq]
  norm_num

lemma root_minus_le_root_plus : root_minus ≤ root_plus := by
  unfold root_plus root_minus
  rw [div_le_div_iff_of_pos_right two_qa_pos]
  have := Real.sqrt_nonneg disc
  linarith

lemma t_roll2_eq_root_plus : t_roll2 = root_plus :=
  max_eq_left root_minus_le_root_plus

lemma root_plus_pos : 0 < root_plus := by
  unfold root_plus qb
  apply div_pos _ two_qa_pos
  have := sqrt_disc_gt_v_C
  linarith

lemma t_roll2_pos : 0 < t_roll2 := t_roll2_eq_root_plus ▸ root_plus_pos

lemma root_minus_neg : root_minus < 0 := by
  unfold root_minus qb
  apply div_neg_of_neg_of_pos _ two_qa_pos
  have h1 := Real.sqrt_nonneg disc
  have h2 := v_C_pos
  linarith

lemma quad_sat : 0.5 * a_roll2 * t_roll2 ^ 2 + v_C * t_roll2 - s_total = 0 := by
  have hu : Real.sqrt disc ^ 2 = 49.05 := by
    rw [Real.sq_sqrt (by rw [disc_eq]; norm_num : (0:ℝ) ≤ disc), disc_eq]
  have hv : v_C ^ 2 = 19.62 := v_C_sq
  have ht : t_roll2 = (Real.sqrt disc - v_C) / 4.905 := by
    rw [t_roll2_eq_root_plus]
    unfold root_plus qa qb
    rw [a_roll2_eq]
    ring
  rw [ht, a_roll2_eq]
  unfold s_total l_incline
  linear_combination (1 / 9.81) * hu - (1 / 9.81) * hv

lemma v_C_add_roll : v_C + a_roll2 * t_roll2 = Real.sqrt disc := by
  have ht : t_roll2 = (Real.sqrt disc - v_C) / 4.905 := by
    rw [t_roll2_eq_root_plus]
    unfold root_plus qa qb
    rw [a_roll2_eq]
    ring
  rw [ht, a_roll2_eq]
  ring

lemma g_t_fall1_sq : (g * t_fall1) ^ 2 = 29.43 := by
  unfold t_fall1 g h h_roll
  rw [mul_pow, Real.sq_sqrt (by norm_num : (0:ℝ) ≤ 2 * (2.0 - 0.5) / 9.81)]
  norm_num

lemma path1_boundary : Real.sqrt (v_B ^ 2 + (g * t_fall1) ^ 2) = v_final := by
  rw [v_B_sq, g_t_fall1_sq, v_final_eq]
  norm_num

lemma t_roll1_le_T1 : t_roll1 ≤ T1 := by
  unfold T1
  linarith [t_fall1_pos]

lemma t_roll1_lt_T1 : t_roll1 < T1 := by
  unfold T1
  linarith [t_fall1_pos]

lemma t_fall2_le_T2 : t_fall2 ≤ T2 := by
  unfold T2
  linarith [t_roll2_pos]

lemma t_fall2_lt_T2 : t_fall2 < T2 := by
  unfold T2
  linarith [t_roll2_pos]

lemma speed1_clamp_T1 : speed_path1 T1 = v_final := by
  unfold speed_path1
  rw [if_neg (not_lt.mpr t_roll1_le_T1), if_neg (lt_irrefl T1)]

lemma speed2_clamp_T2 : speed_path2 T2 = v_final := by
  unfold speed_path2
  rw [if_neg (not_lt.mpr t_fall2_le_T2), if_neg (lt_irrefl T2)]

lemma T1_pos : 0 < T1 := by
  unfold T1
  linarith [t_roll1_pos, t_fall1_pos]

lemma t_max_pos : 0 < t_max :=
  lt_of_lt_of_le T1_pos (le_max_left T1 T2)

end Ex10

/-! ## Claim theorems for the two-path scenario -/

/-- C1 (code evaluated at the failing input): path 1's in-flight formula at
`T1` does equal `v_final`, and for `t ≥ T2` `speed_path2` clamps to `v_final`,
but path 2's in-flight formula evaluated at `t = T2` is strictly larger than
`v_final`: the two paths do not converge to the same terminal speed, contrary
to the source's own comment "final speed (same for both)". -/
theorem claim1_terminal_speed_mismatch :
    Real.sqrt (Ex10.v_B ^ 2 + (Ex10.g * Ex10.t_fall1) ^ 2) = Ex10.v_final ∧
      Ex10.speed_path2 Ex10.T2 = Ex10.v_final ∧
      Ex10.v_final < Ex10.v_C + Ex10.a_roll2 * (Ex10.T2 - Ex10.t_fall2) := by
  refine ⟨Ex10.path1_boundary, Ex10.speed2_clamp_T2, ?_⟩
  have h2 : Ex10.T2 - Ex10.t_fall2 = Ex10.t_roll2 := by
    unfold Ex10.T2
    ring
  rw [h2, Ex10.v_C_add_roll, Ex10.disc_eq, Ex10.v_final_eq]
  exact Real.sqrt_lt_sqrt (by norm_num) (by norm_num)

/-- C3: `t_roll2` is the larger of the two roots of
`0.5*a_roll2*t^2 + v_C*t - s_total = 0`, it is strictly positive and satisfies
the quadratic exactly, and the discarded smaller root is negative. -/
theorem claim3_larger_root_selected :
    Ex10.t_roll2 = Ex10.root_plus ∧ 0 < Ex10.t_roll2 ∧
      0.5 * Ex10.a_roll2 * Ex10.t_roll2 ^ 2 + Ex10.v_C * Ex10.t_roll2 - Ex10.s_total = 0 ∧
      Ex10.root_minus < 0 :=
  ⟨Ex10.t_roll2_eq_root_plus, Ex10.t_roll2_pos, Ex10.quad_sat, Ex10.root_minus_neg⟩

/-- C6: the kinematic functions clamp past the last phase boundary: for every
`t ≥ T1`, `speed_path1 t = v_final` and `pos_path1 t = (2, -h)`; for every
`t ≥ T2`, `speed_path2 t = v_final` and `pos_path2 t = (3, -h)` (the embedded
functions are total on ℝ, so no time input is outside the defined branches). -/
theorem claim6_clamped_tail (t : ℝ) :
    (Ex10.T1 ≤ t → Ex10.speed_path1 t = Ex10.v_final ∧ Ex10.pos_path1 t = (2, -Ex10.h)) ∧
      (Ex10.T2 ≤ t → Ex10.speed_path2 t = Ex10.v_final ∧ Ex10.pos_path2 t = (3, -Ex10.h)) := by
  constructor
  · intro ht
    have h1 : ¬ t < Ex10.t_roll1 := not_lt.mpr (le_trans Ex10.t_roll1_le_T1 ht)
    have h2 : ¬ t < Ex10.T1 := not_lt.mpr ht
    constructor
    · unfold Ex10.speed_path1
      rw [if_neg h1, if_neg h2]
    · unfold Ex10.pos_path1
      rw [if_neg h1, if_neg h2]
  · intro ht
    have h1 : ¬ t < Ex10.t_fall2 := not_lt.mpr (le_trans Ex10.t_fall2_le_T2 ht)
    have h2 : ¬ t < Ex10.T2 := not_lt.mpr ht
    constructor
    · unfold Ex10.speed_path2
      rw [if_neg h1, if_neg h2]
    · unfold Ex10.pos_path2
      rw [if_neg h1, if_neg h2]

/-- witness for C6 at the boundary times themselves. -/
theorem claim6_clamped_tail_witness :
    Ex10.speed_path1 Ex10.T1 = Ex10.v_final ∧ Ex10.pos_path2 Ex10.T2 = (3, -Ex10.h) :=
  ⟨((claim6_clamped_tail Ex10.T1).1 le_rfl).1, ((claim6_clamped_tail Ex10.T2).2 le_rfl).2⟩

/-- C10: at a phase boundary time exactly, each piecewise function evaluates
the succeeding phase's formula, since every branch guard is a strict
less-than. -/
theorem claim10_boundary_takes_next_phase :
    Ex10.speed_path1 Ex10.t_roll1 = Ex10.v_B ∧ Ex10.speed_path1 Ex10.T1 = Ex10.v_final ∧
      Ex10.speed_path2 Ex10.t_fall2 = Ex10.v_C ∧ Ex10.speed_path2 Ex10.T2 = Ex10.v_final ∧
      Ex10.pos_path1 Ex10.t_roll1 = (1, -Ex10.h_roll) ∧
      Ex10.pos_path2 Ex10.t_fall2 = (1, -Ex10.h_free) := by
  refine ⟨?_, Ex10.speed1_clamp_T1, ?_, Ex10.speed2_clamp_T2, ?_, ?_⟩
  · unfold Ex10.speed_path1
    rw [if_neg (lt_irrefl _), if_pos Ex10.t_roll1_lt_T1]
    have e : Ex10.v_B ^ 2 + (Ex10.g * (Ex10.t_roll1 - Ex10.t_roll1)) ^ 2 = Ex10.v_B ^ 2 := by
      ring
    rw [e, Real.sqrt_sq Ex10.v_B_nonneg]
  · unfold Ex10.speed_path2
    rw [if_neg (lt_irrefl _), if_pos Ex10.t_fall2_lt_T2, sub_self, mul_zero, add_zero]
  · unfold Ex10.pos_path1
    rw [if_neg (lt_irrefl _), if_pos Ex10.t_roll1_lt_T1, sub_self, zero_div]
    norm_num
  · unfold Ex10.pos_path2
    rw [if_neg (lt_irrefl _), if_pos Ex10.t_fall2_lt_T2, sub_self, zero_div]
    norm_num

/-! ## Lemmas about the orbit scenario -/

namespace Ex14

lemma GM_pos : 0 < GM := by
  unfold GM G M_earth
  norm_num

lemma base_pos : 0 < GM * (T_earth / (2 * Real.pi)) ^ 2 := by
  apply mul_pos GM_pos
  unfold T_earth
  positivity

lemma r_geo_real_pos : 0 < r_geo_real := by
  unfold r_geo_real
  exact Real.rpow_pos_of_pos base_pos _

lemma r_close_real_pos : 0 < r_close_real := by
  unfold r_close_real
  exact mul_pos (Real.rpow_pos_of_pos (by norm_num) _) r_geo_real_pos

lemma r_close_lt_r_geo : r_close_real < r_geo_real := by
  unfold r_close_real
  have h1 : (4:ℝ) ^ (-(1:ℝ)/3) < 1 :=
    Real.rpow_lt_one_of_one_lt_of_neg (by norm_num) (by norm_num)
  exact mul_lt_of_lt_one_left r_geo_real_pos h1

lemma r_geo_lt_r_far : r_geo_real < r_far_real := by
  unfold r_far_real
  have h1 : (1:ℝ) < (4:ℝ) ^ ((1:ℝ)/3) :=
    (Real.one_lt_rpow_iff_of_pos (by norm_num)).mpr (Or.inl ⟨by norm_num, by norm_num⟩)
  exact lt_mul_of_one_lt_left r_geo_real_pos h1

lemma orbital_period_lt (r1 r2 : ℝ) (h1 : 0 < r1) (h12 : r1 < r2) :
    orbital_period r1 < orbital_period r2 := by
  unfold orbital_period
  have h3 : r1 ^ 3 < r2 ^ 3 := pow_lt_pow_left₀ h12 h1.le (by norm_num)
  have h4 : r1 ^ 3 / GM < r2 ^ 3 / GM := (div_lt_div_iff_of_pos_right GM_pos).mpr h3
  have h5 : Real.sqrt (r1 ^ 3 / GM) < Real.sqrt (r2 ^ 3 / GM) :=
    Real.sqrt_lt_sqrt (div_nonneg (by positivity) GM_pos.le) h4
  have h6 : (0:ℝ) < 2 * Real.pi := by positivity
  exact mul_lt_mul_of_pos_left h5 h6

lemma period_r_geo : orbital_period r_geo_real = T_earth := by
  unfold orbital_period
  have hcube : r_geo_real ^ 3 = GM * (T_earth / (2 * Real.pi)) ^ 2 := by
    unfold r_geo_real
    rw [← Real.rpow_natCast ((GM * (T_earth / (2 * Real.pi)) ^ 2) ^ ((1:ℝ)/3)) 3,
      ← Real.rpow_mul base_pos.le]
    norm_num
  rw [hcube, mul_div_cancel_left₀ _ (ne_of_gt GM_pos),
    Real.sqrt_sq (by unfold T_earth; positivity)]
  have hπ : (2:ℝ) * Real.pi ≠ 0 := by positivity
  field_simp

lemma sat_pos_radius (r T t : ℝ) :
    (sat_pos r T t).1 ^ 2 + (sat_pos r T t).2 ^ 2 = r ^ 2 := by
  unfold sat_pos
  have := Real.sin_sq_add_cos_sq (2 * Real.pi * t / T)
  nlinarith [this]

end Ex14

/-! ## Claim theorems for the orbit scenario -/

/-- C7: every satellite stays at constant distance from the center: for every
time t and each assigned pair (r, T), the point returned by `sat_pos`
satisfies x² + y² = r². -/
theorem claim7_constant_radius (t : ℝ) :
    (Ex14.sat_pos Ex14.r_close Ex14.T_close t).1 ^ 2 +
        (Ex14.sat_pos Ex14.r_close Ex14.T_close t).2 ^ 2 = Ex14.r_close ^ 2 ∧
      (Ex14.sat_pos Ex14.r_geo Ex14.T_geo t).1 ^ 2 +
        (Ex14.sat_pos Ex14.r_geo Ex14.T_geo t).2 ^ 2 = Ex14.r_geo ^ 2 ∧
      (Ex14.sat_pos Ex14.r_far Ex14.T_far t).1 ^ 2 +
        (Ex14.sat_pos Ex14.r_far Ex14.T_far t).2 ^ 2 = Ex14.r_far ^ 2 :=
  ⟨Ex14.sat_pos_radius _ _ t, Ex14.sat_pos_radius _ _ t, Ex14.sat_pos_radius _ _ t⟩

/-- C8: `orbital_period` is strictly increasing on positive radii, hence
T_close < T_geo < T_far; composing the geostationary-radius formula with
`orbital_period` reproduces the Earth rotation period used (24·3600 s), which
lies in the 86164–86400 s range. -/
theorem claim8_kepler_ordering_and_round_trip :
    (∀ r1 r2 : ℝ, 0 < r1 → r1 < r2 → Ex14.orbital_period r1 < Ex14.orbital_period r2) ∧
      Ex14.T_close < Ex14.T_geo ∧ Ex14.T_geo < Ex14.T_far ∧
      Ex14.orbital_period Ex14.r_geo_real = Ex14.T_earth ∧
      (86164:ℝ) ≤ Ex14.T_earth ∧ Ex14.T_earth ≤ 86400 := by
  refine ⟨Ex14.orbital_period_lt, ?_, ?_, Ex14.period_r_geo, ?_, ?_⟩
  · exact Ex14.orbital_period_lt _ _ Ex14.r_close_real_pos Ex14.r_close_lt_r_geo
  · exact Ex14.orbital_period_lt _ _ Ex14.r_geo_real_pos Ex14.r_geo_lt_r_far
  · unfold Ex14.T_earth
    norm_num
  · unfold Ex14.T_earth
    norm_num

/-- witness for C8: the monotonicity part applied at radii 1 < 2, together
with the period ordering it yields. -/
theorem claim8_kepler_ordering_and_round_trip_witness :
    Ex14.orbital_period 1 < Ex14.orbital_period 2 ∧ Ex14.T_close < Ex14.T_geo :=
  ⟨claim8_kepler_ordering_and_round_trip.1 1 2 one_pos one_lt_two,
    claim8_kepler_ordering_and_round_trip.2.1⟩

/-! ## Lemmas about the time grids -/

unseal Rat.mul Rat.inv Rat.ofScientific in
lemma Bond.bondN_eq : Bond.bondN = 100 := by decide

lemma Bond.dt_pos : 0 < Bond.dt := by
  norm_num [Bond.dt]

lemma Bond.tSample_zero : Bond.tSample 0 = 0 := by
  simp [Bond.tSample]

lemma Bond.tSample_mono (i j : ℕ) (hij : i < j) : Bond.tSample i < Bond.tSample j := by
  unfold Bond.tSample
  exact mul_lt_mul_of_pos_right (by exact_mod_cast hij) Bond.dt_pos

lemma Bond.tSample_bounds (k : ℕ) (hk : k < Bond.bondN) :
    0 ≤ Bond.tSample k ∧ Bond.tSample k ≤ Bond.T_max - Bond.dt := by
  rw [Bond.bondN_eq] at hk
  constructor
  · exact mul_nonneg (Nat.cast_nonneg k) Bond.dt_pos.le
  · have h99 : (k:ℚ) ≤ 99 := by exact_mod_cast Nat.lt_succ_iff.mp hk
    calc (k:ℚ) * Bond.dt ≤ 99 * Bond.dt :=
          mul_le_mul_of_nonneg_right h99 Bond.dt_pos.le
      _ = Bond.T_max - Bond.dt := by norm_num [Bond.dt, Bond.T_max]

lemma Bond.tSample_last : Bond.tSample (Bond.bondN - 1) = Bond.T_max - Bond.dt := by
  rw [Bond.bondN_eq]
  unfold Bond.tSample
  norm_num [Bond.dt, Bond.T_max]

lemma Ex10.ts_zero : Ex10.ts 0 = 0 := by
  simp [Ex10.ts]

lemma Ex10.ts_last : Ex10.ts 299 = Ex10.t_max := by
  unfold Ex10.ts
  push_cast
  field_simp

lemma Ex10.ts_mono (i j : ℕ) (hij : i < j) : Ex10.ts i < Ex10.ts j := by
  unfold Ex10.ts
  exact (div_lt_div_iff_of_pos_right (by norm_num : (0:ℝ) < 299)).mpr
    (mul_lt_mul_of_pos_left (by exact_mod_cast hij) Ex10.t_max_pos)

lemma Ex14.sim_time_pos : 0 < Ex14.sim_time := by
  unfold Ex14.sim_time Ex14.T_earth
  norm_num

lemma Ex14.times_zero : Ex14.times 0 = 0 := by
  simp [Ex14.times]

lemma Ex14.times_last : Ex14.times 499 = Ex14.sim_time := by
  unfold Ex14.times
  push_cast
  field_simp

lemma Ex14.times_mono (i j : ℕ) (hij : i < j) : Ex14.times i < Ex14.times j := by
  unfold Ex14.times
  exact (div_lt_div_iff_of_pos_right (by norm_num : (0:ℝ) < 499)).mpr
    (mul_lt_mul_of_pos_left (by exact_mod_cast hij) Ex14.sim_time_pos)

/-! ## Claim theorems for the time grids -/

set_option maxRecDepth 4000 in
unseal Rat.add Rat.mul Rat.inv Rat.sub Rat.ofScientific in
/-- C9 (counterexample): the stunt-jump grid `np.arange(0, T_max, dt)` does not
span zero to the scenario's total duration: all of its 100 samples are
strictly below `T_max = 2.0` (the last one is 1.98). -/
theorem claim9_counterexample :
    Bond.bondN = 100 ∧
      ((List.range Bond.bondN).all fun k => decide (Bond.tSample k < Bond.T_max)) = true := by
  decide

/-- C9 (amended): every precomputed grid starts at zero and is strictly
increasing; the two `linspace` grids end exactly at their scenario's total
duration, while the stunt-jump `arange` grid stays within
`[0, T_max - dt]`, its last sample being `T_max - dt = 1.98`, one step short
of the total duration. -/
theorem claim9_amended_time_grids :
    Ex10.ts 0 = 0 ∧ Ex10.ts 299 = Ex10.t_max ∧
      (∀ i j : ℕ, i < j → j ≤ 299 → Ex10.ts i < Ex10.ts j) ∧
      Ex14.times 0 = 0 ∧ Ex14.times 499 = Ex14.sim_time ∧
      (∀ i j : ℕ, i < j → j ≤ 499 → Ex14.times i < Ex14.times j) ∧
      Bond.tSample 0 = 0 ∧ (∀ i j : ℕ, i < j → Bond.tSample i < Bond.tSample j) ∧
      (∀ k : ℕ, k < Bond.bondN → 0 ≤ Bond.tSample k ∧ Bond.tSample k ≤ Bond.T_max - Bond.dt) ∧
      Bond.tSample (Bond.bondN - 1) = Bond.T_max - Bond.dt :=
  ⟨Ex10.ts_zero, Ex10.ts_last, fun i j hij _ => Ex10.ts_mono i j hij,
    Ex14.times_zero, Ex14.times_last, fun i j hij _ => Ex14.times_mono i j hij,
    Bond.tSample_zero, Bond.tSample_mono, Bond.tSample_bounds, Bond.tSample_last⟩

/-- witness for C9 at concrete grid indices. -/
theorem claim9_amended_time_grids_witness :
    Ex10.ts 0 < Ex10.ts 299 ∧ Ex14.times 0 < Ex14.times 499 ∧
      Bond.tSample 0 < Bond.tSample 1 ∧ 0 ≤ Bond.tSample 5 :=
  ⟨claim9_amended_time_grids.2.2.1 0 299 (by norm_num) le_rfl,
    claim9_amended_time_grids.2.2.2.2.2.1 0 499 (by norm_num) le_rfl,
    claim9_amended_time_grids.2.2.2.2.2.2.2.1 0 1 (by norm_num),
    (claim9_amended_time_grids.2.2.2.2.2.2.2.2.1 5 (by rw [Bond.bondN_eq]; norm_num)).1⟩
